import Mathlib

/-!
Verification of the BigQuery agent sample repository.

The repository configures two agents:
  * `bq_agent_app/agent.py` (non-HITL): one after-tool callback
    (`update_bigquery_api_count`) and two before-tool callbacks
    (`validate_sql_callback`, `sql_query_dryrun_callback`) registered in
    that order on `root_agent`.
  * `bq-hitl-agent-app/agent.py` (HITL): a `check_query_cost` tool that
    dry-runs the query, compares the scanned byte count against a
    configured threshold, and records pending-query fields in session
    state when approval is required.

The external BigQuery dry-run call is modelled as an explicit
`Except String Nat` argument (an exception message or the byte count the
dry run reports); the ADK session state is modelled as a record of the
keys this repository's code reads or writes.  All definitions below are
translated from the Python source; the two places where something is
modelled rather than translated carry a comment saying so.
-/

/-- The session state keys this repository's code reads or writes.  In ADK
the state is a string-keyed dictionary; `none` models an absent key. -/
structure SessionState where
  pending_query : Option String := none
  pending_query_bytes : Option Nat := none
  pending_query_project_id : Option String := none
  approved_query : Option String := none
  approved_query_project_id : Option String := none
  bigquery_api_failure : Option Nat := none
deriving DecidableEq

/-- The empty session state (no keys present). -/
def initState : SessionState := {}

/-- Result dictionary of `check_query_cost`.  The Python function returns a
dict whose `total_bytes_processed` key is present only on some branches,
modelled by `Option`. -/
structure CostCheckResult where
  status : String
  total_bytes_processed : Option Nat := none
  message : String
deriving DecidableEq

/-- `bq_agent_app/config.py` (`BigQueryAgentConfiguration` dataclass) with
its hardcoded defaults. -/
structure BigQueryAgentConfiguration where
  model : String := "gemini-2.5-flash"
  project_id : String := "your-project-id"
  dataset_id : String := "your-dataset-id"
  dry_run_threshold_bytes : Nat := 1000000000
deriving DecidableEq

/-- The module-level `config = BigQueryAgentConfiguration()` instance. -/
def config : BigQueryAgentConfiguration := {}

/-- Modelled from the spec: the configuration module of `bq-hitl-agent-app`
(imported as `from .config import config` and read as
`config.approval_threshold_bytes` in `bq-hitl-agent-app/agent.py`) is not
present under `src/`.  The spec states the threshold is read "from a
configuration object with hardcoded defaults" with "default 1×10⁹ bytes". -/
structure HitlAgentConfiguration where
  approval_threshold_bytes : Nat := 1000000000
deriving DecidableEq

/-- Modelled from the spec: the `config` instance of the HITL app's missing
configuration module. -/
def hitl_config : HitlAgentConfiguration := {}

/-- Python `str.lower()` (ASCII case folding, which is all the forbidden
keyword check needs). -/
def pyLower (s : String) : String := ⟨s.data.map Char.toLower⟩

/-- `leadsWith hay needle`: does `hay` start with `needle`? -/
def leadsWith : List Char → List Char → Bool
  | _, [] => true
  | [], _ :: _ => false
  | c :: cs, d :: ds => c == d && leadsWith cs ds

/-- Helper for `hasSubstr`: scan the haystack for an occurrence of `sub`. -/
def hasSubstrAux (sub : List Char) : List Char → Bool
  | [] => sub.isEmpty
  | c :: cs => leadsWith (c :: cs) sub || hasSubstrAux sub cs

/-- Python's `sub in s` substring test. -/
def hasSubstr (s sub : String) : Bool := hasSubstrAux sub.data s.data

/-- Zero-pad a three-digit comma group. -/
def pad3 (n : Nat) : String :=
  if n < 10 then "00" ++ toString n
  else if n < 100 then "0" ++ toString n
  else toString n

/-- Helper for `commaFormat`: insert a comma every three digits into a
least-significant-digit-first digit list; the counter is the number of
digits still to emit before the next comma. -/
def insertCommasRev : List Char → Nat → List Char
  | [], _ => []
  | c :: cs, 0 => ',' :: c :: insertCommasRev cs 2
  | c :: cs, Nat.succ k => c :: insertCommasRev cs k

/-- Python's `f"{n:,}"` thousands-separated integer formatting. -/
def commaFormat (n : Nat) : String :=
  ⟨(insertCommasRev (toString n).data.reverse 3).reverse⟩

/-- Zero-pad the two-digit fractional part of `format2f`. -/
def pad2 (n : Nat) : String :=
  if n < 10 then "0" ++ toString n else toString n

/-- Python's `f"{num / den:.2f}"` modelled in exact rational arithmetic:
round `num / den` to two decimal places, ties to even.  (Python rounds the
nearest binary double; the two coincide whenever the quotient is exactly
representable, in particular at every exact division.) -/
def format2f (num den : Nat) : String :=
  let scaled := num * 100
  let q := scaled / den
  let r := scaled % den
  let q' := if den < 2 * r then q + 1
            else if 2 * r = den then (if q % 2 = 1 then q + 1 else q)
            else q
  toString (q' / 100) ++ "." ++ pad2 (q' % 100)

/-- Fractional digits of `r / den` (with fuel), for `pyDivRepr`. -/
def fracDigits : Nat → Nat → Nat → List Char
  | 0, _, _ => []
  | _ + 1, 0, _ => []
  | fuel + 1, r, den => Nat.digitChar (r * 10 / den) :: fracDigits fuel (r * 10 % den) den

/-- Python's `f"{num / den}"` float repr, modelled as the exact decimal
expansion of the quotient (up to 17 fractional digits).  This agrees with
Python whenever the quotient is a short exact decimal — in particular for
the configured threshold, where it yields `"1.0"`. -/
def pyDivRepr (num den : Nat) : String :=
  let q := num / den
  let r := num % den
  if r = 0 then toString q ++ ".0"
  else toString q ++ "." ++ String.mk (fracDigits 17 r den)

/-- `check_query_cost` from `bq-hitl-agent-app/agent.py`.  `dryRun` is the
outcome of the external BigQuery dry-run call (`Except.error e` models the
Python exception caught by the `try`/`except`).  Returns the result dict
together with the (possibly updated) session state. -/
def check_query_cost (state : SessionState) (query project_id : String)
    (dryRun : Except String Nat) : CostCheckResult × SessionState :=
  if query = "" ∨ project_id = "" then
    ({ status := "ERROR", total_bytes_processed := none,
       message := "Query or Project ID is missing" }, state)
  else
    match dryRun with
    | Except.error e =>
        ({ status := "ERROR", total_bytes_processed := none,
           message := "クエリのドライラン中にエラーが発生しました: " ++ e }, state)
    | Except.ok total_bytes_processed =>
        if total_bytes_processed ≥ hitl_config.approval_threshold_bytes then
          ({ status := "APPROVAL_REQUIRED",
             total_bytes_processed := some total_bytes_processed,
             message := "このクエリは約 " ++ format2f total_bytes_processed 1000000000 ++
               " GB (" ++ commaFormat total_bytes_processed ++
               " bytes) のデータをスキャンします。実行するには承認が必要です。" },
           { state with
               pending_query := some query,
               pending_query_bytes := some total_bytes_processed,
               pending_query_project_id := some project_id })
        else
          ({ status := "APPROVED",
             total_bytes_processed := some total_bytes_processed,
             message := "このクエリは約 " ++ format2f total_bytes_processed 1000000 ++
               " MB (" ++ commaFormat total_bytes_processed ++
               " bytes) のデータをスキャンします。承認不要で実行できます。" }, state)

/-- The `args` dict of a tool call, restricted to the two keys the
callbacks inspect; `none` models an absent key. -/
structure ToolArgs where
  query : Option String := none
  project_id : Option String := none
deriving DecidableEq

/-- The `{"result": ...}` dict a before-tool callback returns to block the
tool call. -/
structure CallbackResult where
  result : String
deriving DecidableEq

/-- `validate_sql_callback` from `bq_agent_app/agent.py`: blocks
`execute_sql` when the lowercased query contains `"delete"`.  Python's
`args.get("query", "")` is `args.query.getD ""`. -/
def validate_sql_callback (toolName : String) (args : ToolArgs) :
    Option CallbackResult :=
  if toolName = "execute_sql" then
    if hasSubstr (pyLower (args.query.getD "")) "delete" then
      some { result := "Tool execution was blocked due to forbidden delete statement!" }
    else none
  else none

/-- `sql_query_dryrun_callback` from `bq_agent_app/agent.py`.  The dry run
is performed only when the tool is `execute_sql` and both the `"query"`
and `"project_id"` keys are present; `dryRunBytes` is the byte count that
dry run would report. -/
def sql_query_dryrun_callback (toolName : String) (args : ToolArgs)
    (dryRunBytes : Nat) : Option CallbackResult :=
  if toolName = "execute_sql" ∧ args.query.isSome ∧ args.project_id.isSome then
    if dryRunBytes > config.dry_run_threshold_bytes then
      some { result := "Large size SQL query is forbidden. The query size by dry run is " ++
        toString dryRunBytes ++ " bytes > " ++
        pyDivRepr config.dry_run_threshold_bytes 1000000000 ++ " GB" }
    else none
  else none

/-- The `before_tool_callback=[validate_sql_callback, sql_query_dryrun_callback]`
chain registered on `root_agent` (`bq_agent_app/agent.py` line 99): ADK
runs the callbacks in list order and the first non-`None` return value
replaces the tool call. -/
def before_tool_callback (toolName : String) (args : ToolArgs)
    (dryRunBytes : Nat) : Option CallbackResult :=
  match validate_sql_callback toolName args with
  | some r => some r
  | none => sql_query_dryrun_callback toolName args dryRunBytes

/-- `update_bigquery_api_count` from `bq_agent_app/agent.py` (the
after-tool callback).  `toolResponseStatus` is
`tool_response.get("status")`. -/
def update_bigquery_api_count (toolName : String)
    (toolResponseStatus : Option String) (state : SessionState) : SessionState :=
  if toolName ∈ ["execute_sql"] then
    if toolResponseStatus = some "ERROR" then
      { state with bigquery_api_failure := some (state.bigquery_api_failure.getD 0 + 1) }
    else state
  else state

/-! ## Theorems -/

/-- A string with a non-empty left part stays non-empty under append. -/
theorem append_ne_empty_of_left_ne_empty (s t : String) (h : s ≠ "") :
    s ++ t ≠ "" := by
  intro hc
  apply h
  have hd : s.data ++ t.data = [] := by
    have h2 := congrArg String.data hc
    simpa [String.data_append] using h2
  exact String.ext (List.append_eq_nil.mp hd).1

/-- Claim C1: for a non-empty query and project id whose dry-run estimate is
at least the configured threshold, `check_query_cost` returns status
`"APPROVAL_REQUIRED"` and records `pending_query`, `pending_query_bytes` and
`pending_query_project_id` in session state; for an estimate strictly below
the threshold it returns `"APPROVED"` and leaves the state unchanged. -/
theorem check_query_cost_threshold_gate (state : SessionState)
    (query project_id : String) (n : Nat)
    (hq : query ≠ "") (hp : project_id ≠ "") :
    (hitl_config.approval_threshold_bytes ≤ n →
      (check_query_cost state query project_id (Except.ok n)).1.status =
        "APPROVAL_REQUIRED" ∧
      (check_query_cost state query project_id (Except.ok n)).2 =
        { state with
            pending_query := some query,
            pending_query_bytes := some n,
            pending_query_project_id := some project_id }) ∧
    (n < hitl_config.approval_threshold_bytes →
      (check_query_cost state query project_id (Except.ok n)).1.status =
        "APPROVED" ∧
      (check_query_cost state query project_id (Except.ok n)).2 = state) := by
  have hmiss : ¬(query = "" ∨ project_id = "") := by
    rintro (h | h) <;> [exact hq h; exact hp h]
  constructor
  · intro h
    simp [check_query_cost, hmiss, ge_iff_le, h]
  · intro h
    simp [check_query_cost, hmiss, ge_iff_le, Nat.not_le.mpr h]

/-- Witness for C1 at concrete inputs on both sides of the threshold. -/
theorem check_query_cost_threshold_gate_witness :
    ((check_query_cost initState "SELECT 1" "p" (Except.ok 2000000000)).1.status =
      "APPROVAL_REQUIRED" ∧
     (check_query_cost initState "SELECT 1" "p" (Except.ok 2000000000)).2 =
        { initState with
            pending_query := some "SELECT 1",
            pending_query_bytes := some 2000000000,
            pending_query_project_id := some "p" }) ∧
    ((check_query_cost initState "SELECT 1" "p" (Except.ok 500000000)).1.status =
      "APPROVED" ∧
     (check_query_cost initState "SELECT 1" "p" (Except.ok 500000000)).2 =
        initState) :=
  ⟨(check_query_cost_threshold_gate initState "SELECT 1" "p" 2000000000
      (by decide) (by decide)).1 (by decide),
   (check_query_cost_threshold_gate initState "SELECT 1" "p" 500000000
      (by decide) (by decide)).2 (by decide)⟩

/-- Claim C2: an `execute_sql` call whose query contains the substring
`"delete"` in any letter case is blocked by `validate_sql_callback` with the
fixed refusal payload, and because that callback is first in the registered
`before_tool_callback` list, the block happens regardless of the dry-run
byte estimate. -/
theorem validate_sql_blocks_delete (args : ToolArgs)
    (h : hasSubstr (pyLower (args.query.getD "")) "delete" = true) :
    validate_sql_callback "execute_sql" args =
      some { result := "Tool execution was blocked due to forbidden delete statement!" } ∧
    ∀ dryRunBytes : Nat,
      before_tool_callback "execute_sql" args dryRunBytes =
        some { result := "Tool execution was blocked due to forbidden delete statement!" } := by
  have hv : validate_sql_callback "execute_sql" args =
      some { result := "Tool execution was blocked due to forbidden delete statement!" } := by
    simp [validate_sql_callback, h]
  exact ⟨hv, fun b => by simp [before_tool_callback, hv]⟩

/-- Witness for C2: a mixed-case DELETE query with a huge dry-run estimate
is still refused with the keyword message. -/
theorem validate_sql_blocks_delete_witness :
    hasSubstr (pyLower "DeLeTe FROM sales") "delete" = true ∧
    before_tool_callback "execute_sql"
        { query := some "DeLeTe FROM sales", project_id := some "p" } 5000000000 =
      some { result := "Tool execution was blocked due to forbidden delete statement!" } :=
  ⟨by decide,
   (validate_sql_blocks_delete
      { query := some "DeLeTe FROM sales", project_id := some "p" } (by decide)).2
      5000000000⟩

/-- Claim C3: when the query or the project id is empty/missing, or the
dry-run raises, `check_query_cost` returns status `"ERROR"` with a
non-empty message and leaves the session state unchanged (the function is
total, so no exception ever reaches the caller). -/
theorem check_query_cost_error_paths (state : SessionState)
    (query project_id : String) (d : Except String Nat)
    (h : query = "" ∨ project_id = "" ∨ ∃ e, d = Except.error e) :
    (check_query_cost state query project_id d).1.status = "ERROR" ∧
    (check_query_cost state query project_id d).1.message ≠ "" ∧
    (check_query_cost state query project_id d).2 = state := by
  by_cases hm : query = "" ∨ project_id = ""
  · refine ⟨?_, ?_, ?_⟩ <;> simp [check_query_cost, hm]
  · rcases h with h | h | ⟨e, rfl⟩
    · exact absurd (Or.inl h) hm
    · exact absurd (Or.inr h) hm
    · refine ⟨by simp [check_query_cost, hm], ?_, by simp [check_query_cost, hm]⟩
      simp only [check_query_cost, hm, if_false, ite_false]
      exact append_ne_empty_of_left_ne_empty _ e (by decide)

/-- Witness for C3 on all three error routes: empty query, empty project
id, and a failing dry run. -/
theorem check_query_cost_error_paths_witness :
    ((check_query_cost initState "" "p" (Except.ok 5)).1.status = "ERROR" ∧
     (check_query_cost initState "" "p" (Except.ok 5)).1.message ≠ "" ∧
     (check_query_cost initState "" "p" (Except.ok 5)).2 = initState) ∧
    ((check_query_cost initState "SELECT 1" "" (Except.ok 5)).1.status = "ERROR" ∧
     (check_query_cost initState "SELECT 1" "" (Except.ok 5)).1.message ≠ "" ∧
     (check_query_cost initState "SELECT 1" "" (Except.ok 5)).2 = initState) ∧
    ((check_query_cost initState "SELECT 1" "p" (Except.error "boom")).1.status = "ERROR" ∧
     (check_query_cost initState "SELECT 1" "p" (Except.error "boom")).1.message ≠ "" ∧
     (check_query_cost initState "SELECT 1" "p" (Except.error "boom")).2 = initState) :=
  ⟨check_query_cost_error_paths initState "" "p" (Except.ok 5) (Or.inl rfl),
   check_query_cost_error_paths initState "SELECT 1" "" (Except.ok 5) (Or.inr (Or.inl rfl)),
   check_query_cost_error_paths initState "SELECT 1" "p" (Except.error "boom")
     (Or.inr (Or.inr ⟨"boom", rfl⟩))⟩

/-- Claim C5: with the threshold at 1,000,000,000 bytes, a 2,000,000,000-byte
estimate yields `"APPROVAL_REQUIRED"` with a message containing `"2.00 GB"`,
and a 500,000,000-byte estimate yields `"APPROVED"` with a message
containing `"500.00 MB"`. -/
theorem check_query_cost_examples (state : SessionState)
    (query project_id : String) (hq : query ≠ "") (hp : project_id ≠ "") :
    hitl_config.approval_threshold_bytes = 1000000000 ∧
    ((check_query_cost state query project_id (Except.ok 2000000000)).1.status =
        "APPROVAL_REQUIRED" ∧
     hasSubstr (check_query_cost state query project_id
        (Except.ok 2000000000)).1.message "2.00 GB" = true) ∧
    ((check_query_cost state query project_id (Except.ok 500000000)).1.status =
        "APPROVED" ∧
     hasSubstr (check_query_cost state query project_id
        (Except.ok 500000000)).1.message "500.00 MB" = true) := by
  have hmiss : ¬(query = "" ∨ project_id = "") := by
    rintro (h | h) <;> [exact hq h; exact hp h]
  refine ⟨rfl, ⟨?_, ?_⟩, ⟨?_, ?_⟩⟩ <;> simp [check_query_cost, hmiss, hitl_config] <;> decide

/-- Witness for C5 at a concrete query, project id and state. -/
theorem check_query_cost_examples_witness :
    ((check_query_cost initState "SELECT 1" "p" (Except.ok 2000000000)).1.status =
        "APPROVAL_REQUIRED" ∧
     hasSubstr (check_query_cost initState "SELECT 1" "p"
        (Except.ok 2000000000)).1.message "2.00 GB" = true) ∧
    ((check_query_cost initState "SELECT 1" "p" (Except.ok 500000000)).1.status =
        "APPROVED" ∧
     hasSubstr (check_query_cost initState "SELECT 1" "p"
        (Except.ok 500000000)).1.message "500.00 MB" = true) :=
  ⟨(check_query_cost_examples initState "SELECT 1" "p" (by decide) (by decide)).2.1,
   (check_query_cost_examples initState "SELECT 1" "p" (by decide) (by decide)).2.2⟩

/-- Counterexample to C6 as stated: the `"ERROR"` branch of
`check_query_cost` does not include the `total_bytes_processed` field. -/
theorem check_query_cost_error_lacks_byte_count :
    (check_query_cost initState "" "p" (Except.ok 0)).1.status = "ERROR" ∧
    (check_query_cost initState "" "p" (Except.ok 0)).1.total_bytes_processed =
      none := by decide

/-- Claim C6 (amended): every `check_query_cost` result carries a status tag
that is exactly one of `"APPROVED"`, `"APPROVAL_REQUIRED"` or `"ERROR"` and a
non-empty message; the byte count is included exactly on the non-`"ERROR"`
branches and omitted on the `"ERROR"` branches. -/
theorem check_query_cost_result_shape (state : SessionState)
    (query project_id : String) (d : Except String Nat) :
    ((check_query_cost state query project_id d).1.status = "APPROVED" ∨
     (check_query_cost state query project_id d).1.status = "APPROVAL_REQUIRED" ∨
     (check_query_cost state query project_id d).1.status = "ERROR") ∧
    ((check_query_cost state query project_id d).1.status = "ERROR" ↔
      (check_query_cost state query project_id d).1.total_bytes_processed = none) ∧
    (check_query_cost state query project_id d).1.message ≠ "" := by
  by_cases hm : query = "" ∨ project_id = ""
  · refine ⟨Or.inr (Or.inr ?_), ?_, ?_⟩ <;> simp [check_query_cost, hm]
  · cases d with
    | error e =>
        refine ⟨Or.inr (Or.inr ?_), ?_, ?_⟩
        · simp [check_query_cost, hm]
        · simp [check_query_cost, hm]
        · simp only [check_query_cost, hm, if_false, ite_false]
          exact append_ne_empty_of_left_ne_empty _ e (by decide)
    | ok n =>
        by_cases hge : n ≥ hitl_config.approval_threshold_bytes
        · have hs : (check_query_cost state query project_id (Except.ok n)).1.status =
              "APPROVAL_REQUIRED" := by simp [check_query_cost, hm, ge_iff_le, hge]
          have hb : (check_query_cost state query project_id
              (Except.ok n)).1.total_bytes_processed = some n := by
            simp [check_query_cost, hm, ge_iff_le, hge]
          refine ⟨Or.inr (Or.inl hs), ?_, ?_⟩
          · rw [hs, hb]; exact iff_of_false (by decide) (by simp)
          · have hmsg : (check_query_cost state query project_id (Except.ok n)).1.message =
                "このクエリは約 " ++ format2f n 1000000000 ++ " GB (" ++ commaFormat n ++
                  " bytes) のデータをスキャンします。実行するには承認が必要です。" := by
              simp [check_query_cost, hm, ge_iff_le, hge]
            rw [hmsg]
            exact append_ne_empty_of_left_ne_empty _ _
              (append_ne_empty_of_left_ne_empty _ _
                (append_ne_empty_of_left_ne_empty _ _
                  (append_ne_empty_of_left_ne_empty _ _ (by decide))))
        · have hs : (check_query_cost state query project_id (Except.ok n)).1.status =
              "APPROVED" := by simp [check_query_cost, hm, ge_iff_le, hge]
          have hb : (check_query_cost state query project_id
              (Except.ok n)).1.total_bytes_processed = some n := by
            simp [check_query_cost, hm, ge_iff_le, hge]
          refine ⟨Or.inl hs, ?_, ?_⟩
          · rw [hs, hb]; exact iff_of_false (by decide) (by simp)
          · have hmsg : (check_query_cost state query project_id (Except.ok n)).1.message =
                "このクエリは約 " ++ format2f n 1000000 ++ " MB (" ++ commaFormat n ++
                  " bytes) のデータをスキャンします。承認不要で実行できます。" := by
              simp [check_query_cost, hm, ge_iff_le, hge]
            rw [hmsg]
            exact append_ne_empty_of_left_ne_empty _ _
              (append_ne_empty_of_left_ne_empty _ _
                (append_ne_empty_of_left_ne_empty _ _
                  (append_ne_empty_of_left_ne_empty _ _ (by decide))))

/-- Claim C7: the after-tool callback bumps the `bigquery_api_failure`
counter by exactly one when the tool is `execute_sql` and the response
status is `"ERROR"`, and leaves the session state unchanged in every other
case. -/
theorem update_bigquery_api_count_spec (toolName : String)
    (respStatus : Option String) (state : SessionState) :
    (toolName = "execute_sql" ∧ respStatus = some "ERROR" →
      update_bigquery_api_count toolName respStatus state =
        { state with
            bigquery_api_failure := some (state.bigquery_api_failure.getD 0 + 1) }) ∧
    (¬(toolName = "execute_sql" ∧ respStatus = some "ERROR") →
      update_bigquery_api_count toolName respStatus state = state) := by
  constructor
  · rintro ⟨h1, h2⟩
    simp [update_bigquery_api_count, h1, h2]
  · intro h
    by_cases h1 : toolName = "execute_sql"
    · have h2 : ¬respStatus = some "ERROR" := fun h2 => h ⟨h1, h2⟩
      simp [update_bigquery_api_count, h1, h2]
    · simp [update_bigquery_api_count, h1]

/-- Witness for C7: a failing `execute_sql` response bumps the counter from
absent (defaulting to 0) to 1; a failing response of another tool leaves
the state untouched. -/
theorem update_bigquery_api_count_spec_witness :
    update_bigquery_api_count "execute_sql" (some "ERROR") initState =
      { initState with bigquery_api_failure := some 1 } ∧
    update_bigquery_api_count "get_table_info" (some "ERROR") initState =
      initState :=
  ⟨(update_bigquery_api_count_spec "execute_sql" (some "ERROR") initState).1
      ⟨rfl, rfl⟩,
   (update_bigquery_api_count_spec "get_table_info" (some "ERROR") initState).2
      (by simp)⟩

/-- Claim C8: the byte threshold the cost check compares against comes from
a configuration object whose hardcoded default is 1,000,000,000 bytes, and
`check_query_cost` requires approval exactly when the estimate reaches that
configured value. -/
theorem threshold_default_config :
    config.dry_run_threshold_bytes = 1000000000 ∧
    hitl_config.approval_threshold_bytes = 1000000000 ∧
    ∀ (state : SessionState) (query project_id : String) (n : Nat),
      query ≠ "" → project_id ≠ "" →
      ((check_query_cost state query project_id (Except.ok n)).1.status =
          "APPROVAL_REQUIRED" ↔ hitl_config.approval_threshold_bytes ≤ n) := by
  refine ⟨rfl, rfl, ?_⟩
  intro state query project_id n hq hp
  have hmiss : ¬(query = "" ∨ project_id = "") := by
    rintro (h | h) <;> [exact hq h; exact hp h]
  by_cases hge : hitl_config.approval_threshold_bytes ≤ n
  · have hs : (check_query_cost state query project_id (Except.ok n)).1.status =
        "APPROVAL_REQUIRED" := by simp [check_query_cost, hmiss, ge_iff_le, hge]
    rw [hs]
    exact iff_of_true rfl hge
  · have hs : (check_query_cost state query project_id (Except.ok n)).1.status =
        "APPROVED" := by simp [check_query_cost, hmiss, ge_iff_le, hge]
    rw [hs]
    exact iff_of_false (by decide) hge

/-- Witness for C8: an estimate exactly at the 1 GB default requires
approval. -/
theorem threshold_default_config_witness :
    (check_query_cost initState "SELECT 1" "p" (Except.ok 1000000000)).1.status =
      "APPROVAL_REQUIRED" :=
  (threshold_default_config.2.2 initState "SELECT 1" "p" 1000000000
      (by decide) (by decide)).mpr (by decide)

/-- Claim C9: in the non-HITL agent, `sql_query_dryrun_callback` blocks only
on a strictly greater-than comparison: an estimate exactly equal to the
configured threshold returns `none` (execution proceeds), and the callback
returns a blocking payload exactly when the estimate is strictly above the
threshold. -/
theorem sql_query_dryrun_strict_gt (args : ToolArgs)
    (hq : args.query.isSome = true) (hp : args.project_id.isSome = true) :
    sql_query_dryrun_callback "execute_sql" args config.dry_run_threshold_bytes =
      none ∧
    ∀ b : Nat,
      ((sql_query_dryrun_callback "execute_sql" args b).isSome = true ↔
        config.dry_run_threshold_bytes < b) := by
  constructor
  · simp [sql_query_dryrun_callback, hq, hp]
  · intro b
    by_cases hb : config.dry_run_threshold_bytes < b
    · simp [sql_query_dryrun_callback, hq, hp, gt_iff_lt, hb]
    · simp [sql_query_dryrun_callback, hq, hp, gt_iff_lt, hb]

/-- Witness for C9: at exactly the 1 GB threshold the query is let through,
and one byte above it the callback blocks. -/
theorem sql_query_dryrun_strict_gt_witness :
    sql_query_dryrun_callback "execute_sql"
      { query := some "SELECT 1", project_id := some "p" } 1000000000 = none ∧
    (sql_query_dryrun_callback "execute_sql"
      { query := some "SELECT 1", project_id := some "p" } 1000000001).isSome =
      true :=
  ⟨(sql_query_dryrun_strict_gt
      { query := some "SELECT 1", project_id := some "p" } (by decide) (by decide)).1,
   ((sql_query_dryrun_strict_gt
      { query := some "SELECT 1", project_id := some "p" } (by decide) (by decide)).2
      1000000001).mpr (by decide)⟩

/-- Claim C10: when the `execute_sql` arguments lack the `"query"` key or
the `"project_id"` key, `sql_query_dryrun_callback` returns `none` whatever
byte count a dry run would have reported — the cost gate is silently
bypassed with no error. -/
theorem sql_query_dryrun_missing_args_bypass (args : ToolArgs)
    (h : args.query = none ∨ args.project_id = none) (b : Nat) :
    sql_query_dryrun_callback "execute_sql" args b = none := by
  unfold sql_query_dryrun_callback
  rw [if_neg]
  rintro ⟨-, h1, h2⟩
  rcases h with h | h
  · rw [h] at h1; exact Bool.noConfusion h1
  · rw [h] at h2; exact Bool.noConfusion h2

/-- Witness for C10: with no `"query"` key, a query that would scan a
terabyte is waved through. -/
theorem sql_query_dryrun_missing_args_bypass_witness :
    sql_query_dryrun_callback "execute_sql"
      { query := none, project_id := some "p" } 1000000000000 = none :=
  sql_query_dryrun_missing_args_bypass
    { query := none, project_id := some "p" } (Or.inl rfl) 1000000000000
